import Mathlib

/-!
Verification of the Twilio voice webhook function (`twilio-voice` edge
function).  The Deno handler is shallowly embedded: request bodies,
environment configuration and the telephony provider are explicit
parameters; JavaScript exceptions are modelled with `Except`; calls to the
provider are recorded in an effect log.  Machine-checked statements about
the classifier, the request normalizer, the per-action handlers and the
top-level error boundary follow the definitions.
-/

/-! ### JavaScript-style string primitives -/

/-- Character-list test that `pre` begins `s` (used to embed
`String.prototype.startsWith`). -/
def leadsWith : List Char → List Char → Bool
  | [], _ => true
  | _ :: _, [] => false
  | a :: as, b :: bs => (a == b) && leadsWith as bs

/-- Embedding of `s.startsWith(pre)`. -/
def strStartsWith (s pre : String) : Bool :=
  leadsWith pre.toList s.toList

/-- Sublist occurrence test on character lists. -/
def occursIn (sub : List Char) : List Char → Bool
  | [] => sub.isEmpty
  | c :: rest => leadsWith sub (c :: rest) || occursIn sub rest

/-- Embedding of `s.includes(sub)`. -/
def strIncludes (s sub : String) : Bool :=
  occursIn sub.toList s.toList

/-- Embedding of `s.endsWith(suf)` (used only to state well-formedness of
rendered markup). -/
def strEndsWith (s suf : String) : Bool :=
  leadsWith suf.toList.reverse s.toList.reverse

/-- Embedding of `phoneNumber.replace(/\D/g, '')`: strip every
non-digit character. -/
def stripNonDigits (s : String) : String :=
  (s.toList.filter Char.isDigit).asString

/-- JavaScript whitespace characters relevant to `String.prototype.trim`. -/
def isJsSpace (c : Char) : Bool :=
  c == ' ' || c == '\t' || c == '\n' || c == '\r'

/-- Embedding of the guard `text && text.trim()`: the text is non-empty and
contains a non-whitespace character. -/
def textTruthyTrimmed (s : String) : Bool :=
  s.toList.any (fun c => !(isJsSpace c))

/-! ### Parameter maps (JavaScript plain objects) -/

/-- A JavaScript object used as a string map, embedded as an association
list in which a later binding overwrites an earlier one (as repeated
`obj[key] = value` assignments and object spreads do). -/
abbrev Params := List (String × String)

/-- Property lookup on a `Params` object: the value of the latest binding
of the key, `none` when the key is absent (JavaScript `undefined`). -/
def getParam : Params → String → Option String
  | [], _ => none
  | (k, v) :: rest, key =>
    match getParam rest key with
    | some w => some w
    | none => if k = key then some v else none

/-- JavaScript truthiness of a string-or-undefined value: `undefined` and
the empty string are falsy. -/
def jsTruthy : Option String → Bool
  | none => false
  | some s => !(s == "")

/-- Embedding of `x || d` on a string-or-undefined value. -/
def jsOrElse (o : Option String) (d : String) : String :=
  match o with
  | none => d
  | some s => if s == "" then d else s

/-! ### JavaScript errors and fallible operations -/

/-- A thrown JavaScript error, reduced to its `message` property (the only
part the handler inspects). -/
structure JsError where
  message : String
deriving DecidableEq, Repr

/-- Outcomes of the three body-reading primitives the handler may invoke on
the cloned request: `reqClone.json()`, `reqClone.formData()` and
`reqClone.text()`.  Each either yields a value or throws. -/
structure BodyIO where
  jsonResult : Except JsError Params
  formDataResult : Except JsError Params
  textResult : Except JsError String

/-- Ambient JavaScript runtime operations used by the normalizer:
`JSON.parse` (fallible) and `new URLSearchParams(text)` (total — malformed
input degrades to whatever pairs could be read, never a throw). -/
structure JsRuntime where
  jsonParse : String → Except JsError Params
  parseUrlEncoded : String → Params

/-! ### Request normalizer (body parsing, lines 60–127 of the handler) -/

/-- Embedding of the body-parsing block.  `contentType` is
`req.headers.get('content-type') || ''`.  Every `try`/`catch` of the
source becomes a `match` on the fallible primitive; a caught failure
leaves `requestData` as it was.  The result is `Except` so that an
exception escaping this block (there is none) would surface as `.error`
and be caught by the handler's top-level `catch`. -/
def parseRequestBody (rt : JsRuntime) (contentType : String) (body : BodyIO) :
    Except JsError Params :=
  if strIncludes contentType "application/json" then
    match body.jsonResult with
    | .ok d => .ok d
    | .error _ => .ok []
  else if strIncludes contentType "application/x-www-form-urlencoded" ||
      strIncludes contentType "multipart/form-data" then
    match body.formDataResult with
    | .ok d => .ok d
    | .error _ =>
      match body.textResult with
      | .ok t => .ok (rt.parseUrlEncoded t)
      | .error _ => .ok []
  else
    match body.textResult with
    | .ok t =>
      if textTruthyTrimmed t then
        match rt.jsonParse t with
        | .ok d => .ok d
        | .error _ => .ok (rt.parseUrlEncoded t)
      else .ok []
    | .error _ => .ok []

/-! ### TwiML voice markup -/

/-- The TwiML verbs the handler emits.  `dial` records the `callerId` and
`timeout` options, the optional `action` callback URL, and the dialed
number. -/
inductive TwimlVerb where
  | say (msg : String)
  | dial (callerId : String) (timeout : Nat) (actionUrl : Option String) (number : String)
  | pause (length : Nat)
  | hangup
deriving DecidableEq, Repr

/-- A `twilio.twiml.VoiceResponse` under construction: the list of verbs
added to it. -/
abbrev VoiceTwiml := List TwimlVerb

/-- Rendering of a single verb to markup text (`twiml.toString()`). -/
def renderVerb : TwimlVerb → String
  | .say m => "<Say>" ++ m ++ "</Say>"
  | .dial cid t act n =>
    "<Dial callerId=\"" ++ cid ++ "\" timeout=\"" ++ toString t ++ "\"" ++
      (match act with
       | some u => " action=\"" ++ u ++ "\" method=\"POST\""
       | none => "") ++
      "><Number>" ++ n ++ "</Number></Dial>"
  | .pause l => "<Pause length=\"" ++ toString l ++ "\"/>"
  | .hangup => "<Hangup/>"

/-- Concatenation of rendered verbs. -/
def renderVerbs : VoiceTwiml → String
  | [] => ""
  | v :: rest => renderVerb v ++ renderVerbs rest

/-- Rendering of a whole `VoiceResponse` document (`twiml.toString()`):
the XML declaration and the root `<Response>` wrapper around the verbs. -/
def renderTwiml (vs : VoiceTwiml) : String :=
  "<?xml version=\"1.0\" encoding=\"UTF-8\"?><Response>" ++ renderVerbs vs ++
    "</Response>"

/-- Well-formedness of a rendered markup document: it opens with the XML
declaration and the root element and closes that root element. -/
def twimlWellFormed (s : String) : Bool :=
  strStartsWith s "<?xml version=\"1.0\" encoding=\"UTF-8\"?><Response>" &&
    strEndsWith s "</Response>"

/-- Whether a markup document carries spoken content (a `Say` verb). -/
def hasSpokenContent (vs : VoiceTwiml) : Bool :=
  vs.any fun v =>
    match v with
    | .say _ => true
    | _ => false

/-- Whether the markup contains a dial instruction to the given number. -/
def dialsNumber (vs : VoiceTwiml) (n : String) : Bool :=
  vs.any fun v =>
    match v with
    | .dial _ _ _ num => num == n
    | _ => false

/-! ### HTTP responses and JSON payloads -/

/-- The JSON object shapes this function serializes: a `success` flag plus
the optional fields used by the various handlers. -/
structure JsonBody where
  success : Bool
  error : Option String := none
  status : Option String := none
  message : Option String := none
  callSid : Option String := none
  leadId : Option String := none
  twilioPhoneNumber : Option String := none
deriving DecidableEq, Repr

/-- An HTTP response body: voice markup, a JSON payload, or no body (the
OPTIONS preflight answer). -/
inductive RespBody where
  | xml (twiml : VoiceTwiml)
  | json (j : JsonBody)
  | empty
deriving DecidableEq, Repr

/-- An HTTP response: status code, `Content-Type` header and body.  The
CORS headers are attached uniformly in the source and are not modelled. -/
structure HttpResponse where
  status : Nat
  contentType : Option String
  body : RespBody
deriving DecidableEq, Repr

/-- A `new Response(twiml.toString(), { headers: ..., 'Content-Type':
'text/xml' })`: the JS `Response` constructor defaults the status to
200 when none is given. -/
def respXml (vs : VoiceTwiml) : HttpResponse :=
  ⟨200, some "text/xml", .xml vs⟩

/-- A `new Response(JSON.stringify(...), { headers: ..., 'Content-Type':
'application/json' })`, status defaulting to 200. -/
def respJson (j : JsonBody) : HttpResponse :=
  ⟨200, some "application/json", .json j⟩

/-! ### Environment configuration and the telephony provider -/

/-- The environment variables the handler branches on.  (It also reads
`TWILIO_API_KEY`, `TWILIO_API_SECRET` and `TWILIO_TWIML_APP_SID`, but only
to log their availability.) -/
structure TwilioEnv where
  accountSid : Option String
  authToken : Option String
  phoneNumber : Option String

/-- The telephony control client (`twilio(sid, token)`), abstracted by the
outcome of each operation the handler uses: `calls.list({status:
'in-progress'})` (yielding the listed call SIDs), `calls(sid).update({
status: 'completed' })`, `calls(sid).fetch()` (yielding `call.status`) and
`calls.create(...)` (yielding `call.sid`). -/
structure TwilioProvider where
  listInProgress : Except JsError (List String)
  updateCompleted : String → Except JsError Unit
  fetchStatus : String → Except JsError String
  createCall : Except JsError String

/-- Log entry for one invocation of the provider client. -/
inductive ProviderEffect where
  | listCalls
  | updateCall (sid : String)
  | fetchCall (sid : String)
  | createCall
deriving DecidableEq, Repr

/-! ### Action classifier (lines 56–201 of the handler) -/

/-- Result of the classification cascade: the final `action` value and the
three detection flags the dispatcher re-reads. -/
structure ClassifyResult where
  action : Option String
  isStatusCallback : Bool
  isConferenceCallback : Bool
  isClientInitiatedCall : Bool
deriving DecidableEq, Repr

/-- Embedding of the classification cascade, one `let` per mutation of the
`action` variable, in source order: explicit URL `action` parameter,
explicit body `action` field, bare `phoneNumber` (browser client call),
status-callback detection, conference-callback detection, and finally
client-initiated-call detection, which overwrites everything before it. -/
def classifyAction (urlParams requestData : Params) : ClassifyResult :=
  let action0 := getParam urlParams "action"
  let action1 :=
    if !(jsTruthy action0) && jsTruthy (getParam requestData "action") then
      getParam requestData "action"
    else action0
  let action2 :=
    if !(jsTruthy action1) && jsTruthy (getParam requestData "phoneNumber") then
      some "incomingCall"
    else action1
  let isStatusCb :=
    jsTruthy (getParam requestData "CallSid") &&
      (jsTruthy (getParam requestData "CallStatus") ||
        getParam requestData "CallbackSource" == some "call-progress-events" ||
        jsTruthy (getParam urlParams "statusCallback") ||
        jsTruthy (getParam requestData "statusCallback"))
  let action3 := if isStatusCb then some "statusCallback" else action2
  let isConfCb :=
    jsTruthy (getParam requestData "ConferenceSid") ||
      action3 == some "conferenceStatus" ||
      (match getParam requestData "StatusCallbackEvent" with
       | some ev => strIncludes ev "conference"
       | none => false)
  let action4 := if isConfCb then some "conferenceStatus" else action3
  let isClientCall :=
    match getParam requestData "From" with
    | some f =>
      !(f == "") && strStartsWith f "client:" &&
        jsTruthy (getParam requestData "phoneNumber")
    | none => false
  let action5 := if isClientCall then some "clientCall" else action4
  ⟨action5, isStatusCb, isConfCb, isClientCall⟩

/-! ### Phone number formatting -/

/-- Embedding of the number-formatting idiom repeated at lines 262–266,
345–349 and 587–590: prepend `+` and strip non-digits unless the number
already starts with `+` or contains `client:`. -/
def formatPhoneNumber (phoneNumber : String) : String :=
  if !(strStartsWith phoneNumber "+") && !(strIncludes phoneNumber "client:") then
    "+" ++ stripNonDigits phoneNumber
  else phoneNumber

/-! ### Per-action handlers of the call lifecycle controller -/

/-- The `clientCall` handler (lines 244–297): validates the destination
number, formats it, and builds markup that speaks a wait message then
dials with the configured caller ID, a 20-second timeout and a
`dialStatus` action URL carrying the lead reference.  `twilioPhone` is the
`TWILIO_PHONE_NUMBER` value (already checked truthy by the dispatcher). -/
def clientCallResponse (twilioPhone : String) (requestData : Params) :
    HttpResponse :=
  let phoneNumber := getParam requestData "phoneNumber"
  let leadId := jsOrElse (getParam requestData "leadId") "unknown"
  if !(jsTruthy phoneNumber) then
    respXml [.say "No phone number was provided. Please try your call again."]
  else
    let formatted := formatPhoneNumber (phoneNumber.getD "")
    respXml
      [.say "Connecting your call. Please wait.",
       .dial twilioPhone 20
         (some ("https://imrmboyczebjlbnkgjns.supabase.co/functions/v1/twilio-voice?action=dialStatus&leadId=" ++ leadId))
         formatted]

/-- The `makeCall` handler (lines 328–394): validates the destination
number, formats it, and asks the provider to create an outbound call; the
JSON answer carries the assigned call SID (or the failure message). -/
def makeCallResponse (prov : TwilioProvider) (requestData : Params) :
    HttpResponse × List ProviderEffect :=
  let phoneNumber := getParam requestData "phoneNumber"
  if !(jsTruthy phoneNumber) then
    (respJson { success := false, error := some "Phone number is required" }, [])
  else
    match prov.createCall with
    | .ok sid =>
      (respJson
        { success := true, callSid := some sid,
          message := some "Direct outbound call placed",
          leadId := getParam requestData "leadId" },
       [.createCall])
    | .error e =>
      (respJson { success := false, error := some (jsOrElse (some e.message) "Failed to make call") },
       [.createCall])

/-- The merge `callbackData = {...callbackData, ...requestData}` of the
`statusCallback` handler (lines 399–407): URL query parameters first, then
the body parameters spread over them, so a body binding overwrites a URL
binding of the same key. -/
def mergeCallbackData (urlParams requestData : Params) : Params :=
  urlParams ++ requestData

/-- The `statusCallback` handler (lines 395–427): merges URL and body
parameters, and answers with markup that speaks the closing message only
when the reported `CallStatus` is `completed`, and is otherwise empty. -/
def statusCallbackResponse (urlParams requestData : Params) : HttpResponse :=
  let callbackData := mergeCallbackData urlParams requestData
  let callStatus := getParam callbackData "CallStatus"
  if callStatus == some "completed" then
    respXml [.say "Thank you for using our service. Goodbye."]
  else
    respXml []

/-- The `dialStatus` handler (lines 428–454): one fixed spoken message per
dial outcome, with a templated fallback for unknown outcomes. -/
def dialStatusResponse (requestData : Params) : HttpResponse :=
  let dialCallStatus := getParam requestData "DialCallStatus"
  if dialCallStatus == some "completed" then
    respXml [.say "The call has ended. Thank you for using our service."]
  else if dialCallStatus == some "busy" then
    respXml [.say "The number you called is busy. Please try again later."]
  else if dialCallStatus == some "no-answer" then
    respXml [.say "There was no answer. Please try again later."]
  else if dialCallStatus == some "failed" then
    respXml [.say "The call failed to connect. Please check the number and try again."]
  else
    respXml [.say ("Call status is " ++ jsOrElse dialCallStatus "unknown" ++ ". Goodbye.")]

/-- The `checkStatus` handler (lines 455–494): requires `callSid`; the
sentinels `pending-sid` and `browser-call` short-circuit to a synthetic
`pending` status without touching the provider; otherwise the call is
fetched and its status relayed. -/
def checkStatusResponse (prov : TwilioProvider) (requestData : Params) :
    HttpResponse × List ProviderEffect :=
  let callSid := getParam requestData "callSid"
  if !(jsTruthy callSid) then
    (respJson { success := false, error := some "Call SID is required to check call status" }, [])
  else
    let sid := callSid.getD ""
    if sid == "pending-sid" || sid == "browser-call" then
      (respJson { success := true, status := some "pending" }, [])
    else
      match prov.fetchStatus sid with
      | .ok st => (respJson { success := true, status := some st }, [.fetchCall sid])
      | .error e => (respJson { success := false, error := some e.message }, [.fetchCall sid])

/-- The `endCall` handler (lines 495–531): requires `callSid`; the
`browser-call` sentinel short-circuits to success without a provider call;
otherwise the call is updated to `completed`. -/
def endCallResponse (prov : TwilioProvider) (requestData : Params) :
    HttpResponse × List ProviderEffect :=
  let callSid := getParam requestData "callSid"
  if !(jsTruthy callSid) then
    (respJson { success := false, error := some "Call SID is required to end a call" }, [])
  else
    let sid := callSid.getD ""
    if sid == "browser-call" then
      (respJson { success := true, message := some "Browser call handling managed client-side" }, [])
    else
      match prov.updateCompleted sid with
      | .ok _ => (respJson { success := true, message := some "Call ended" }, [.updateCall sid])
      | .error e => (respJson { success := false, error := some e.message }, [.updateCall sid])

/-- The rejection `Promise.all` settles on for the mapped terminate
instructions: the error of the first listed call whose update fails,
`none` when every update succeeds. -/
def firstUpdateError (prov : TwilioProvider) : List String → Option JsError
  | [] => none
  | sid :: rest =>
    match prov.updateCompleted sid with
    | .error e => some e
    | .ok _ => firstUpdateError prov rest

/-- The `hangupAll` handler (lines 532–563): lists the in-progress calls
and maps a terminate instruction over every one of them (all are started
eagerly, so every SID is attempted and logged); `Promise.all` then either
resolves — success JSON reporting the count — or rejects with the first
failure, which the surrounding `catch` converts to a failure JSON. -/
def hangupAllResponse (prov : TwilioProvider) :
    HttpResponse × List ProviderEffect :=
  match prov.listInProgress with
  | .error e =>
    (respJson { success := false, error := some (jsOrElse (some e.message) "Failed to hang up all calls") },
     [.listCalls])
  | .ok sids =>
    let effects := ProviderEffect.listCalls :: sids.map ProviderEffect.updateCall
    match firstUpdateError prov sids with
    | none =>
      (respJson { success := true,
                  message := some ("Terminated " ++ toString sids.length ++ " active calls") },
       effects)
    | some e =>
      (respJson { success := false, error := some (jsOrElse (some e.message) "Failed to hang up all calls") },
       effects)

/-- Interpolation of a string-or-null JavaScript value into a template
literal: `null` prints as "null". -/
def jsInterpolate (o : Option String) : String :=
  match o with
  | none => "null"
  | some s => s

/-- The diagnostic answered for an unrecognized action (lines 607–613). -/
def unknownActionResponse (action : Option String) : HttpResponse :=
  respJson { success := false,
             error := some ("The requested action " ++ jsInterpolate action ++ " is not supported.") }

/-- The trailing `else` of the dispatcher (lines 564–614): a bare
client-originated request (a `From` with the client prefix but no matched
action) gets ad-hoc markup — apology-and-hangup without a number, wait
message and dial with one — and anything else gets the unknown-action
diagnostic. -/
def defaultBranchResponse (twilioPhone : String) (action : Option String)
    (requestData : Params) : HttpResponse :=
  match getParam requestData "From" with
  | some f =>
    if !(f == "") && strStartsWith f "client:" then
      let phoneNumber := getParam requestData "phoneNumber"
      if !(jsTruthy phoneNumber) then
        respXml
          [.say "No phone number was provided for this call. Please specify a phone number to call.",
           .pause 1, .hangup]
      else
        respXml
          [.say "Please wait while we connect your call.",
           .dial twilioPhone 20 none (formatPhoneNumber (phoneNumber.getD ""))]
    else unknownActionResponse action
  | none => unknownActionResponse action

/-! ### Dispatcher, top-level error boundary and the full handler -/

/-- Embedding of the dispatch sequence (lines 221–614), in source order:
the caller-ID configuration guard, the `conferenceStatus`
acknowledgment, the `clientCall` path, `getConfig`, the credentials guard,
then the provider-backed actions, and finally the default branch. -/
def dispatchAction (env : TwilioEnv) (prov : TwilioProvider)
    (urlParams requestData : Params) (c : ClassifyResult) :
    HttpResponse × List ProviderEffect :=
  if !(jsTruthy env.phoneNumber) then
    (respXml [.say "There was a configuration error. The system is missing a phone number to use as caller ID."],
     [])
  else if c.action == some "conferenceStatus" then
    (respXml [], [])
  else if c.action == some "clientCall" || c.isClientInitiatedCall then
    (clientCallResponse (env.phoneNumber.getD "") requestData, [])
  else if c.action == some "getConfig" then
    (respJson { success := true, twilioPhoneNumber := some (env.phoneNumber.getD "") }, [])
  else if !(jsTruthy env.accountSid) || !(jsTruthy env.authToken) then
    (respXml [.say "There was a configuration error with the Twilio credentials."], [])
  else if c.action == some "makeCall" then
    makeCallResponse prov requestData
  else if c.action == some "statusCallback" ||
      (!(jsTruthy c.action) && jsTruthy (getParam requestData "CallSid")) then
    (statusCallbackResponse urlParams requestData, [])
  else if c.action == some "dialStatus" then
    (dialStatusResponse requestData, [])
  else if c.action == some "checkStatus" then
    checkStatusResponse prov requestData
  else if c.action == some "endCall" then
    endCallResponse prov requestData
  else if c.action == some "hangupAll" then
    hangupAllResponse prov
  else
    (defaultBranchResponse (env.phoneNumber.getD "") c.action requestData, [])

/-- The top-level `catch` (lines 615–637): an error whose message mentions
`JSON` is treated as a mis-parsed form request and answered with empty
valid markup; any other error is answered with a failure JSON whose
`error` field is the message or, when that is falsy, a fixed fallback.
The JSON branch sets status 200 explicitly (the comment in the source
notes it was changed from 500 to prevent provider retries). -/
def topLevelCatchResponse (e : JsError) : HttpResponse :=
  if !(e.message == "") && strIncludes e.message "JSON" then
    ⟨200, some "text/xml", .xml []⟩
  else
    ⟨200, some "application/json",
      .json { success := false,
              error := some (jsOrElse (some e.message) "An unexpected error occurred") }⟩

/-- An inbound HTTP request as the handler observes it: the method, the
URL query parameters, the raw `content-type` header, and the outcomes of
the body-reading primitives. -/
structure HttpRequest where
  method : String
  urlParams : Params
  contentTypeHdr : Option String
  body : BodyIO

/-- The whole `serve` handler (lines 37–638): OPTIONS preflight is
answered 204 with no body; otherwise the body is normalized, the action
classified and dispatched, and an exception escaping any of that is
converted by the top-level `catch`. -/
def handleRequest (env : TwilioEnv) (prov : TwilioProvider) (rt : JsRuntime)
    (req : HttpRequest) : HttpResponse × List ProviderEffect :=
  if req.method == "OPTIONS" then
    (⟨204, none, .empty⟩, [])
  else
    let contentType := jsOrElse req.contentTypeHdr ""
    match parseRequestBody rt contentType req.body with
    | .error e => (topLevelCatchResponse e, [])
    | .ok requestData =>
      dispatchAction env prov req.urlParams requestData
        (classifyAction req.urlParams requestData)

/-- Whether a response is voice markup containing a dial instruction to
the given number. -/
def responseDials (r : HttpResponse) (n : String) : Bool :=
  match r.body with
  | .xml vs => dialsNumber vs n
  | _ => false

/-! ### Concrete fixtures -/

/-- A runtime whose `JSON.parse` always fails and whose URL decoder yields
no pairs; the properties below do not depend on its values. -/
def rtFix : JsRuntime := ⟨fun _ => .error ⟨"JSON parse error"⟩, fun _ => []⟩

/-- A fully configured environment. -/
def envFix : TwilioEnv := ⟨some "AC123", some "token", some "+19995550000"⟩

/-- An environment with no caller-ID phone number configured. -/
def envNoPhone : TwilioEnv := ⟨some "AC123", some "token", none⟩

/-- An environment with a caller ID but no account SID. -/
def envNoCreds : TwilioEnv := ⟨none, some "token", some "+19995550000"⟩

/-- A benign provider: no in-progress calls, every operation succeeds. -/
def provFix : TwilioProvider :=
  ⟨.ok [], fun _ => .ok (), fun _ => .ok "completed", .ok "CA999"⟩

/-- A provider reporting three in-progress calls whose second terminate
instruction fails. -/
def provHangupFail : TwilioProvider :=
  ⟨.ok ["CA1", "CA2", "CA3"],
   fun sid => if sid == "CA2" then .error ⟨"update failed"⟩ else .ok (),
   fun _ => .error ⟨"not used"⟩,
   .error ⟨"not used"⟩⟩

/-- A body none of whose reading primitives succeeds. -/
def bodyAllFail : BodyIO :=
  ⟨.error ⟨"no json"⟩, .error ⟨"no form"⟩, .error ⟨"no text"⟩⟩

/-- A POST request selecting the `hangupAll` action by URL parameter. -/
def reqHangupFix : HttpRequest :=
  ⟨"POST", [("action", "hangupAll")], none, bodyAllFail⟩

/-- A browser-client call request: JSON body carrying a client-prefixed
`From`, a bare ten-digit number, and status fields, with no `action`. -/
def reqClientFix : HttpRequest :=
  ⟨"POST", [], some "application/json",
   ⟨.ok [("From", "client:agent1"), ("phoneNumber", "5551234567"),
         ("CallSid", "CA123"), ("CallStatus", "in-progress")],
    .error ⟨"no form"⟩, .error ⟨"no text"⟩⟩⟩

/-! ### Supporting lemmas -/

lemma leadsWith_append (l t : List Char) : leadsWith l (l ++ t) = true := by
  induction l with
  | nil => rfl
  | cons c cs ih => simp [leadsWith, ih]

lemma strToList_append (a b : String) : (a ++ b).toList = a.toList ++ b.toList := by
  simp [String.toList]

lemma strStartsWith_append (p t : String) : strStartsWith (p ++ t) p = true := by
  unfold strStartsWith
  rw [strToList_append]
  exact leadsWith_append _ _

lemma strEndsWith_append (a suf : String) : strEndsWith (a ++ suf) suf = true := by
  unfold strEndsWith
  rw [strToList_append, List.reverse_append]
  exact leadsWith_append _ _

lemma twimlWellFormed_render (vs : VoiceTwiml) :
    twimlWellFormed (renderTwiml vs) = true := by
  unfold twimlWellFormed renderTwiml
  rw [Bool.and_eq_true]
  constructor
  · rw [String.append_assoc]
    exact strStartsWith_append _ _
  · exact strEndsWith_append _ _

lemma parseRequestBody_ok (rt : JsRuntime) (ct : String) (b : BodyIO) :
    ∃ m, parseRequestBody rt ct b = Except.ok m := by
  unfold parseRequestBody
  repeat' split
  all_goals exact ⟨_, rfl⟩

lemma getParam_append_right (a b : Params) (k v : String)
    (h : getParam b k = some v) : getParam (a ++ b) k = some v := by
  induction a with
  | nil => simpa using h
  | cons p rest ih =>
    obtain ⟨k1, v1⟩ := p
    simp only [List.cons_append, getParam, List.append_eq]
    rw [ih]

lemma classify_isClient_action (up rd : Params)
    (h : (classifyAction up rd).isClientInitiatedCall = true) :
    (classifyAction up rd).action = some "clientCall" := by
  unfold classifyAction at h ⊢
  simp only at h ⊢
  rw [h]
  rfl

lemma makeCallResponse_status (prov : TwilioProvider) (rd : Params) :
    (makeCallResponse prov rd).1.status = 200 := by
  unfold makeCallResponse
  dsimp only
  repeat' split
  all_goals rfl

lemma checkStatusResponse_status (prov : TwilioProvider) (rd : Params) :
    (checkStatusResponse prov rd).1.status = 200 := by
  unfold checkStatusResponse
  dsimp only
  repeat' split
  all_goals rfl

lemma endCallResponse_status (prov : TwilioProvider) (rd : Params) :
    (endCallResponse prov rd).1.status = 200 := by
  unfold endCallResponse
  dsimp only
  repeat' split
  all_goals rfl

lemma hangupAllResponse_status (prov : TwilioProvider) :
    (hangupAllResponse prov).1.status = 200 := by
  unfold hangupAllResponse
  dsimp only
  repeat' split
  all_goals rfl

lemma clientCallResponse_status (p : String) (rd : Params) :
    (clientCallResponse p rd).status = 200 := by
  unfold clientCallResponse
  dsimp only
  repeat' split
  all_goals rfl

lemma statusCallbackResponse_status (up rd : Params) :
    (statusCallbackResponse up rd).status = 200 := by
  unfold statusCallbackResponse
  dsimp only
  repeat' split
  all_goals rfl

lemma dialStatusResponse_status (rd : Params) :
    (dialStatusResponse rd).status = 200 := by
  unfold dialStatusResponse
  dsimp only
  repeat' split
  all_goals rfl

lemma defaultBranchResponse_status (p : String) (a : Option String) (rd : Params) :
    (defaultBranchResponse p a rd).status = 200 := by
  unfold defaultBranchResponse unknownActionResponse
  dsimp only
  repeat' split
  all_goals rfl

lemma ite_status200 (c : Prop) [Decidable c] (x y : HttpResponse × List ProviderEffect)
    (hx : x.1.status = 200) (hy : y.1.status = 200) : (ite c x y).1.status = 200 := by
  by_cases h : c
  · rwa [if_pos h]
  · rwa [if_neg h]

lemma dispatchAction_status (env : TwilioEnv) (prov : TwilioProvider)
    (up rd : Params) (c : ClassifyResult) :
    (dispatchAction env prov up rd c).1.status = 200 := by
  unfold dispatchAction
  repeat' apply ite_status200
  all_goals first
    | rfl
    | exact clientCallResponse_status _ _
    | exact makeCallResponse_status _ _
    | exact statusCallbackResponse_status _ _
    | exact dialStatusResponse_status _
    | exact checkStatusResponse_status _ _
    | exact endCallResponse_status _ _
    | exact hangupAllResponse_status _
    | exact defaultBranchResponse_status _ _ _
    | (split <;> rfl)

lemma topLevelCatchResponse_status (e : JsError) :
    (topLevelCatchResponse e).status = 200 := by
  unfold topLevelCatchResponse
  split <;> rfl

/-! ### Claim theorems -/

lemma startsWith_client_ne_empty (f : String)
    (h : strStartsWith f "client:" = true) : (f == "") = false := by
  by_cases hfe : f = ""
  · subst hfe
    exact absurd h (by decide)
  · simp [hfe]

/-- C4: for every declared content type and every outcome of the body
primitives, the normalizer yields a parameter map without an exception
escaping its boundary, and yields the empty map when no primitive
succeeds. -/
theorem normalizer_total (rt : JsRuntime) (ct : String) (b : BodyIO) :
    (∃ m, parseRequestBody rt ct b = Except.ok m) ∧
    ((∃ e, b.jsonResult = Except.error e) →
      (∃ e, b.formDataResult = Except.error e) →
      (∃ e, b.textResult = Except.error e) →
      parseRequestBody rt ct b = Except.ok []) := by
  constructor
  · exact parseRequestBody_ok rt ct b
  · rintro ⟨e1, h1⟩ ⟨e2, h2⟩ ⟨e3, h3⟩
    unfold parseRequestBody
    simp only [h1, h2, h3]
    repeat' split
    all_goals rfl

theorem normalizer_total_witness :
    parseRequestBody rtFix "text/plain" bodyAllFail = Except.ok [] :=
  (normalizer_total rtFix "text/plain" bodyAllFail).2 ⟨_, rfl⟩ ⟨_, rfl⟩ ⟨_, rfl⟩

/-- C2: every request other than an OPTIONS preflight is answered with
HTTP status 200, on every path of the handler. -/
theorem nonOptions_status_200 (env : TwilioEnv) (prov : TwilioProvider)
    (rt : JsRuntime) (req : HttpRequest) (h : req.method ≠ "OPTIONS") :
    (handleRequest env prov rt req).1.status = 200 := by
  have hm : (req.method == "OPTIONS") = false := by simp [h]
  unfold handleRequest
  simp only [hm, Bool.false_eq_true, if_false]
  cases hp : parseRequestBody rt (jsOrElse req.contentTypeHdr "") req.body with
  | error e => simp only [hp]; exact topLevelCatchResponse_status e
  | ok d => simp only [hp]; exact dispatchAction_status env prov req.urlParams d _

theorem nonOptions_status_200_witness :
    reqHangupFix.method ≠ "OPTIONS" ∧
      (handleRequest envFix provHangupFail rtFix reqHangupFix).1.status = 200 :=
  ⟨by decide,
   nonOptions_status_200 envFix provHangupFail rtFix reqHangupFix (by decide)⟩

/-- C3: a request with no explicit action whose `From` begins with the
client prefix and which carries a `phoneNumber` classifies as
`clientCall`, even when call-identifier and status fields are present. -/
theorem classifier_clientCall_overrides (up rd : Params) (f : String)
    (_hUrl : jsTruthy (getParam up "action") = false)
    (_hBody : jsTruthy (getParam rd "action") = false)
    (hFrom : getParam rd "From" = some f)
    (hPre : strStartsWith f "client:" = true)
    (hPhone : jsTruthy (getParam rd "phoneNumber") = true) :
    (classifyAction up rd).action = some "clientCall" := by
  have hf := startsWith_client_ne_empty f hPre
  unfold classifyAction
  simp only [hFrom]
  simp [hf, hPre, hPhone]

theorem classifier_clientCall_overrides_witness :
    (classifyAction []
      [("From", "client:abc"), ("phoneNumber", "5551234567"),
       ("CallSid", "CA123"), ("CallStatus", "queued")]).action =
      some "clientCall" :=
  classifier_clientCall_overrides [] _ "client:abc"
    (by decide) (by decide) (by decide) (by decide) (by decide)

/-- C9: in the merged callback data of the status-callback handler, a key
present in both the URL query parameters and the body takes its value
from the body. -/
theorem statusCallback_body_wins (up rd : Params) (k u v : String)
    (_hu : getParam up k = some u) (hv : getParam rd k = some v) :
    getParam (mergeCallbackData up rd) k = some v := by
  unfold mergeCallbackData
  exact getParam_append_right up rd k v hv

theorem statusCallback_body_wins_witness :
    getParam (mergeCallbackData [("CallStatus", "ringing")]
      [("CallStatus", "completed")]) "CallStatus" = some "completed" :=
  statusCallback_body_wins [("CallStatus", "ringing")]
    [("CallStatus", "completed")] "CallStatus" "ringing" "completed" rfl rfl

/-- C8: the sentinel call identifiers short-circuit `checkStatus` to a
synthetic pending status and `endCall` to success, with no provider
invocation in either case. -/
theorem sentinel_short_circuits (prov : TwilioProvider) (rd : Params) :
    ((getParam rd "callSid" = some "pending-sid" ∨
        getParam rd "callSid" = some "browser-call") →
      checkStatusResponse prov rd =
        (respJson { success := true, status := some "pending" }, [])) ∧
    (getParam rd "callSid" = some "browser-call" →
      endCallResponse prov rd =
        (respJson { success := true,
                    message := some "Browser call handling managed client-side" },
         [])) := by
  constructor
  · rintro (h | h) <;> simp [checkStatusResponse, h, jsTruthy]
  · intro h
    simp [endCallResponse, h, jsTruthy]

theorem sentinel_short_circuits_witness :
    checkStatusResponse provFix [("callSid", "pending-sid")] =
      (respJson { success := true, status := some "pending" }, []) :=
  (sentinel_short_circuits provFix [("callSid", "pending-sid")]).1 (Or.inl rfl)

/-- C6: the status-callback answer is always well-formed markup, and it
carries spoken content exactly when the reported call status is
`completed`. -/
theorem statusCallback_markup (up rd : Params) :
    ∃ vs, (statusCallbackResponse up rd).body = RespBody.xml vs ∧
      twimlWellFormed (renderTwiml vs) = true ∧
      (hasSpokenContent vs = true ↔
        getParam (mergeCallbackData up rd) "CallStatus" = some "completed") := by
  unfold statusCallbackResponse
  dsimp only
  split
  · next h =>
    refine ⟨_, rfl, twimlWellFormed_render _, ?_⟩
    simp only [beq_iff_eq] at h
    simp [hasSpokenContent, h]
  · next h =>
    refine ⟨_, rfl, twimlWellFormed_render _, ?_⟩
    simp only [beq_iff_eq] at h
    simp [hasSpokenContent, h]

/-- C10 counterexample: a caught error with an empty message is answered
with the fixed fallback text, not with the error's own (empty) message. -/
theorem topLevelCatch_empty_message_counterexample :
    (topLevelCatchResponse ⟨""⟩).body =
        RespBody.json { success := false,
                        error := some "An unexpected error occurred" } ∧
    (topLevelCatchResponse ⟨""⟩).body ≠
        RespBody.json { success := false, error := some "" } := by
  exact ⟨by decide, by decide⟩

/-- C10 (amended): the top-level catch always answers 200; a non-empty
message mentioning JSON yields the empty markup document as text/xml; any
other error yields a failure JSON whose error field is the message, or
the fixed fallback when the message is empty. -/
theorem topLevelCatch_shape (e : JsError) :
    (topLevelCatchResponse e).status = 200 ∧
    (e.message ≠ "" → strIncludes e.message "JSON" = true →
      topLevelCatchResponse e = ⟨200, some "text/xml", RespBody.xml []⟩) ∧
    (strIncludes e.message "JSON" = false → e.message ≠ "" →
      topLevelCatchResponse e =
        ⟨200, some "application/json",
          RespBody.json { success := false, error := some e.message }⟩) ∧
    (e.message = "" →
      topLevelCatchResponse e =
        ⟨200, some "application/json",
          RespBody.json { success := false,
                          error := some "An unexpected error occurred" }⟩) := by
  refine ⟨topLevelCatchResponse_status e, ?_, ?_, ?_⟩
  · intro h1 h2
    have hb : (e.message == "") = false := by simp [h1]
    simp [topLevelCatchResponse, hb, h2]
  · intro hI h1
    have hb : (e.message == "") = false := by simp [h1]
    simp [topLevelCatchResponse, hb, hI, jsOrElse]
  · intro h0
    simp [topLevelCatchResponse, h0, jsOrElse]

theorem topLevelCatch_shape_witness :
    topLevelCatchResponse ⟨"Unexpected token in JSON at position 0"⟩ =
      ⟨200, some "text/xml", RespBody.xml []⟩ :=
  (topLevelCatch_shape ⟨"Unexpected token in JSON at position 0"⟩).2.1
    (by decide) (by decide)

lemma firstUpdateError_of_fail (prov : TwilioProvider) (sids : List String)
    (h : ∃ sid ∈ sids, ∃ e, prov.updateCompleted sid = Except.error e) :
    ∃ e, firstUpdateError prov sids = some e := by
  induction sids with
  | nil => simp at h
  | cons s rest ih =>
    cases hu : prov.updateCompleted s with
    | error e2 => exact ⟨e2, by simp [firstUpdateError, hu]⟩
    | ok u =>
      simp only [firstUpdateError, hu]
      apply ih
      obtain ⟨sid, hmem, e, he⟩ := h
      rcases List.mem_cons.mp hmem with rfl | hmem2
      · rw [hu] at he
        cases he
      · exact ⟨sid, hmem2, e, he⟩

/-- C1 counterexample: against three in-progress calls with the second
terminate failing, `hangupAll` attempts all three terminates but answers
a failure JSON, not a success payload reporting the attempted count. -/
theorem hangupAll_failure_counterexample :
    (handleRequest envFix provHangupFail rtFix reqHangupFix).2 =
        [ProviderEffect.listCalls, ProviderEffect.updateCall "CA1",
         ProviderEffect.updateCall "CA2", ProviderEffect.updateCall "CA3"] ∧
    (handleRequest envFix provHangupFail rtFix reqHangupFix).1.body =
        RespBody.json { success := false, error := some "update failed" } ∧
    (handleRequest envFix provHangupFail rtFix reqHangupFix).1.body ≠
        RespBody.json { success := true,
                        message := some "Terminated 3 active calls" } := by
  exact ⟨by decide, by decide, by decide⟩

/-- C1 (amended): when the provider lists calls and at least one terminate
fails, `hangupAll` still attempts every terminate instruction, answers
with status 200, and its body is a failure JSON rather than the success
payload. -/
theorem hangupAll_isolates_attempts (prov : TwilioProvider) (sids : List String)
    (hlist : prov.listInProgress = Except.ok sids)
    (hfail : ∃ sid ∈ sids, ∃ e, prov.updateCompleted sid = Except.error e) :
    (hangupAllResponse prov).2 =
        ProviderEffect.listCalls :: sids.map ProviderEffect.updateCall ∧
    (hangupAllResponse prov).1.status = 200 ∧
    ∃ msg, (hangupAllResponse prov).1.body =
        RespBody.json { success := false, error := some msg } := by
  obtain ⟨e, he⟩ := firstUpdateError_of_fail prov sids hfail
  unfold hangupAllResponse
  simp only [hlist, he]
  exact ⟨trivial, rfl, jsOrElse (some e.message) "Failed to hang up all calls", rfl⟩

theorem hangupAll_isolates_attempts_witness :
    (hangupAllResponse provHangupFail).2 =
        ProviderEffect.listCalls ::
          (["CA1", "CA2", "CA3"].map ProviderEffect.updateCall) ∧
    (hangupAllResponse provHangupFail).1.status = 200 ∧
    ∃ msg, (hangupAllResponse provHangupFail).1.body =
        RespBody.json { success := false, error := some msg } :=
  hangupAll_isolates_attempts provHangupFail ["CA1", "CA2", "CA3"] rfl
    ⟨"CA2", by decide, ⟨"update failed"⟩, rfl⟩

/-- C5 counterexample: for the browser-client request with phoneNumber
5551234567 the markup dials +5551234567 — no country code is inserted, so
it does not dial +15551234567. -/
theorem clientCall_dial_number_counterexample :
    responseDials (handleRequest envFix provFix rtFix reqClientFix).1
        "+15551234567" = false ∧
    responseDials (handleRequest envFix provFix rtFix reqClientFix).1
        "+5551234567" = true := by
  exact ⟨by decide, by decide⟩

lemma classify_client_of_fields (up rd : Params) (f : String)
    (hFrom : getParam rd "From" = some f)
    (hPre : strStartsWith f "client:" = true)
    (hPhone : jsTruthy (getParam rd "phoneNumber") = true) :
    (classifyAction up rd).isClientInitiatedCall = true := by
  have hf := startsWith_client_ne_empty f hPre
  unfold classifyAction
  simp only [hFrom]
  simp [hf, hPre, hPhone]

/-- C5 (amended): a client-initiated call carrying phoneNumber 5551234567
is answered with markup dialing +5551234567 (the number prefixed with `+`
and stripped of non-digits, without a country code). -/
theorem clientCall_formats_number (env : TwilioEnv) (prov : TwilioProvider)
    (up rd : Params) (f : String)
    (hEnv : jsTruthy env.phoneNumber = true)
    (hFrom : getParam rd "From" = some f)
    (hPre : strStartsWith f "client:" = true)
    (hNum : getParam rd "phoneNumber" = some "5551234567") :
    responseDials
      (dispatchAction env prov up rd (classifyAction up rd)).1
      "+5551234567" = true := by
  have hPhone : jsTruthy (getParam rd "phoneNumber") = true := by
    rw [hNum]; decide
  have hclient := classify_client_of_fields up rd f hFrom hPre hPhone
  have hact := classify_isClient_action up rd hclient
  have hfmt : formatPhoneNumber "5551234567" = "+5551234567" := by decide
  unfold dispatchAction
  simp only [hEnv, hact, hclient]
  simp [clientCallResponse, hNum, responseDials, respXml, dialsNumber,
    hfmt, jsTruthy]

theorem clientCall_formats_number_witness :
    responseDials
      (dispatchAction envFix provFix []
        [("From", "client:abc"), ("phoneNumber", "5551234567")]
        (classifyAction [] [("From", "client:abc"), ("phoneNumber", "5551234567")])).1
      "+5551234567" = true :=
  clientCall_formats_number envFix provFix []
    [("From", "client:abc"), ("phoneNumber", "5551234567")] "client:abc"
    (by decide) (by decide) (by decide) (by decide)

/-- C7: with no caller-ID number configured every non-OPTIONS request is
answered with the spoken configuration apology as markup, and with a
caller ID but missing account credentials every provider-backed action is
answered with the spoken credentials apology. -/
theorem missing_config_apologies (env : TwilioEnv) (prov : TwilioProvider)
    (rt : JsRuntime) (req : HttpRequest) (hm : req.method ≠ "OPTIONS") :
    (jsTruthy env.phoneNumber = false →
      (handleRequest env prov rt req).1 =
        respXml [.say "There was a configuration error. The system is missing a phone number to use as caller ID."]) ∧
    (∀ up rd a, jsTruthy env.phoneNumber = true →
      jsTruthy env.accountSid = false ∨ jsTruthy env.authToken = false →
      (classifyAction up rd).action = some a →
      a ∈ (["makeCall", "checkStatus", "endCall", "hangupAll"] : List String) →
      (dispatchAction env prov up rd (classifyAction up rd)).1 =
        respXml [.say "There was a configuration error with the Twilio credentials."]) := by
  constructor
  · intro hp
    have hm2 : (req.method == "OPTIONS") = false := by simp [hm]
    unfold handleRequest
    simp only [hm2, Bool.false_eq_true, if_false]
    obtain ⟨m, hpm⟩ := parseRequestBody_ok rt (jsOrElse req.contentTypeHdr "") req.body
    simp only [hpm]
    unfold dispatchAction
    simp [hp]
  · rintro up rd a hp hc hact hmem
    have hclient : (classifyAction up rd).isClientInitiatedCall = false := by
      cases hcl : (classifyAction up rd).isClientInitiatedCall with
      | false => rfl
      | true =>
        have h2 := classify_isClient_action up rd hcl
        rw [hact] at h2
        simp only [Option.some.injEq] at h2
        subst h2
        simp at hmem
    simp only [List.mem_cons, List.not_mem_nil, or_false] at hmem
    unfold dispatchAction
    rcases hc with hc | hc <;>
      rcases hmem with rfl | rfl | rfl | rfl <;>
        simp [hp, hc, hact, hclient]

theorem missing_config_apologies_witness :
    ((handleRequest envNoPhone provFix rtFix reqHangupFix).1 =
      respXml [.say "There was a configuration error. The system is missing a phone number to use as caller ID."]) ∧
    ((dispatchAction envNoCreds provFix [("action", "hangupAll")] []
        (classifyAction [("action", "hangupAll")] [])).1 =
      respXml [.say "There was a configuration error with the Twilio credentials."]) :=
  ⟨(missing_config_apologies envNoPhone provFix rtFix reqHangupFix (by decide)).1 rfl,
   (missing_config_apologies envNoCreds provFix rtFix reqHangupFix (by decide)).2
     [("action", "hangupAll")] [] "hangupAll" (by decide) (Or.inl rfl)
     (by decide) (by decide)⟩
